import Mathlib

/-!
Shallow embedding of the weather widget in script.js: the WMO weather-code
classifier (getWeatherInfo) and the search flow (handleSearch) with its DOM
panel toggling, network clients and renderer, together with theorems about
the spec's claims.
-/

/-- Presentation derived from a weather code: the pair of mutable locals
(description, icon) that getWeatherInfo in script.js returns. -/
structure WeatherInfo where
  description : String
  icon : String
deriving DecidableEq

/-- Direct translation of getWeatherInfo (script.js lines 132-178): locals
initialised to the Unknown default, then an if/else-if chain over inclusive
ranges of the integer code. -/
def getWeatherInfo (code : Int) : WeatherInfo :=
  if code = 0 then ⟨"Clear Sky", "fa-sun"⟩
  else if 1 ≤ code ∧ code ≤ 3 then ⟨"Partly Cloudy", "fa-cloud-sun"⟩
  else if 45 ≤ code ∧ code ≤ 48 then ⟨"Foggy", "fa-smog"⟩
  else if 51 ≤ code ∧ code ≤ 55 then ⟨"Drizzle", "fa-cloud-rain"⟩
  else if 61 ≤ code ∧ code ≤ 65 then ⟨"Rain", "fa-cloud-showers-heavy"⟩
  else if 71 ≤ code ∧ code ≤ 77 then ⟨"Snow Fall", "fa-snowflake"⟩
  else if 80 ≤ code ∧ code ≤ 82 then ⟨"Rain Showers", "fa-cloud-showers-water"⟩
  else if 95 ≤ code ∧ code ≤ 99 then ⟨"Thunderstorm", "fa-cloud-bolt"⟩
  else ⟨"Unknown", "fa-cloud"⟩

/-- First-match lookup in a list of inclusive (lo, hi, entry) ranges, falling
back to the Unknown default: the reading of the spec's range table. -/
def lookupTable : List (Int × Int × WeatherInfo) → Int → WeatherInfo
  | [], _ => ⟨"Unknown", "fa-cloud"⟩
  | (lo, hi, w) :: rest, code =>
      if lo ≤ code ∧ code ≤ hi then w else lookupTable rest code

/-- The spec's range table of section 4.3, with the fog row taken as the
inclusive range 45-48 (as the spec's note demands). -/
def specTable : List (Int × Int × WeatherInfo) :=
  [(0, 0, ⟨"Clear Sky", "fa-sun"⟩),
   (1, 3, ⟨"Partly Cloudy", "fa-cloud-sun"⟩),
   (45, 48, ⟨"Foggy", "fa-smog"⟩),
   (51, 55, ⟨"Drizzle", "fa-cloud-rain"⟩),
   (61, 65, ⟨"Rain", "fa-cloud-showers-heavy"⟩),
   (71, 77, ⟨"Snow Fall", "fa-snowflake"⟩),
   (80, 82, ⟨"Rain Showers", "fa-cloud-showers-water"⟩),
   (95, 99, ⟨"Thunderstorm", "fa-cloud-bolt"⟩)]

/-- Modelled from the spec: the classifier the spec's table describes,
first matching range wins, Unknown default otherwise. -/
def specClassify (code : Int) : WeatherInfo :=
  lookupTable specTable code

/-- The nine presentations the classifier can produce: the eight table rows
and the Unknown default. -/
def weatherTableEntries : List WeatherInfo :=
  [⟨"Clear Sky", "fa-sun"⟩,
   ⟨"Partly Cloudy", "fa-cloud-sun"⟩,
   ⟨"Foggy", "fa-smog"⟩,
   ⟨"Drizzle", "fa-cloud-rain"⟩,
   ⟨"Rain", "fa-cloud-showers-heavy"⟩,
   ⟨"Snow Fall", "fa-snowflake"⟩,
   ⟨"Rain Showers", "fa-cloud-showers-water"⟩,
   ⟨"Thunderstorm", "fa-cloud-bolt"⟩,
   ⟨"Unknown", "fa-cloud"⟩]

/-- Claim C1: for every integer code the classifier returns exactly the
table entry: 0 is Clear Sky, 1-3 Partly Cloudy, 45-48 inclusive Foggy
(so also 46 and 47), 51-55 Drizzle, 61-65 Rain, 71-77 Snow Fall, 80-82
Rain Showers, 95-99 Thunderstorm; and at the boundaries 44 and 49 the
Unknown default is returned. -/
theorem getWeatherInfo_table_correct :
    (∀ code : Int,
      (code = 0 → getWeatherInfo code = ⟨"Clear Sky", "fa-sun"⟩) ∧
      (1 ≤ code ∧ code ≤ 3 → getWeatherInfo code = ⟨"Partly Cloudy", "fa-cloud-sun"⟩) ∧
      (45 ≤ code ∧ code ≤ 48 → getWeatherInfo code = ⟨"Foggy", "fa-smog"⟩) ∧
      (51 ≤ code ∧ code ≤ 55 → getWeatherInfo code = ⟨"Drizzle", "fa-cloud-rain"⟩) ∧
      (61 ≤ code ∧ code ≤ 65 → getWeatherInfo code = ⟨"Rain", "fa-cloud-showers-heavy"⟩) ∧
      (71 ≤ code ∧ code ≤ 77 → getWeatherInfo code = ⟨"Snow Fall", "fa-snowflake"⟩) ∧
      (80 ≤ code ∧ code ≤ 82 → getWeatherInfo code = ⟨"Rain Showers", "fa-cloud-showers-water"⟩) ∧
      (95 ≤ code ∧ code ≤ 99 → getWeatherInfo code = ⟨"Thunderstorm", "fa-cloud-bolt"⟩)) ∧
    getWeatherInfo 46 = ⟨"Foggy", "fa-smog"⟩ ∧
    getWeatherInfo 47 = ⟨"Foggy", "fa-smog"⟩ ∧
    getWeatherInfo 44 = ⟨"Unknown", "fa-cloud"⟩ ∧
    getWeatherInfo 49 = ⟨"Unknown", "fa-cloud"⟩ := by
  refine ⟨fun code => ⟨?_, ?_, ?_, ?_, ?_, ?_, ?_, ?_⟩, by decide, by decide, by decide, by decide⟩
  all_goals intro h
  all_goals unfold getWeatherInfo
  all_goals split_ifs <;> first | rfl | omega

/-- Witness for C1: the range implications discharged at concrete codes. -/
theorem getWeatherInfo_table_correct_witness :
    getWeatherInfo 0 = ⟨"Clear Sky", "fa-sun"⟩ ∧
    getWeatherInfo 2 = ⟨"Partly Cloudy", "fa-cloud-sun"⟩ ∧
    getWeatherInfo 46 = ⟨"Foggy", "fa-smog"⟩ ∧
    getWeatherInfo 53 = ⟨"Drizzle", "fa-cloud-rain"⟩ ∧
    getWeatherInfo 63 = ⟨"Rain", "fa-cloud-showers-heavy"⟩ ∧
    getWeatherInfo 74 = ⟨"Snow Fall", "fa-snowflake"⟩ ∧
    getWeatherInfo 81 = ⟨"Rain Showers", "fa-cloud-showers-water"⟩ ∧
    getWeatherInfo 97 = ⟨"Thunderstorm", "fa-cloud-bolt"⟩ :=
  ⟨(getWeatherInfo_table_correct.1 0).1 rfl,
   (getWeatherInfo_table_correct.1 2).2.1 (by decide),
   (getWeatherInfo_table_correct.1 46).2.2.1 (by decide),
   (getWeatherInfo_table_correct.1 53).2.2.2.1 (by decide),
   (getWeatherInfo_table_correct.1 63).2.2.2.2.1 (by decide),
   (getWeatherInfo_table_correct.1 74).2.2.2.2.2.1 (by decide),
   (getWeatherInfo_table_correct.1 81).2.2.2.2.2.2.1 (by decide),
   (getWeatherInfo_table_correct.1 97).2.2.2.2.2.2.2 (by decide)⟩

/-- Counterexample to claim C2 as stated: 46 lies outside the two-element
set containing 45 and 48 (and outside every other listed set), so the claim
demands the Unknown default there, but the code classifies 46 as Foggy. -/
theorem getWeatherInfo_46_refutes_fog_pair :
    getWeatherInfo 46 = ⟨"Foggy", "fa-smog"⟩ ∧
    getWeatherInfo 46 ≠ ⟨"Unknown", "fa-cloud"⟩ := by
  decide

/-- Claim C2 amended: with the fog row widened from the pair 45, 48 to the
inclusive range 45-48, the classifier agrees with the spec's table on every
integer, including negatives and codes above 99, which fall to the Unknown
default. -/
theorem getWeatherInfo_eq_specClassify :
    ∀ code : Int, getWeatherInfo code = specClassify code := by
  intro code
  simp only [getWeatherInfo, specClassify, specTable, lookupTable]
  split_ifs <;> first | rfl | omega

/-- Claim C9: the classifier is total (every integer maps to one of the nine
defined presentations, the Unknown default covering unmatched codes) and
deterministic (equal codes give equal outputs; no other input exists). -/
theorem getWeatherInfo_total_deterministic :
    (∀ code : Int, getWeatherInfo code ∈ weatherTableEntries) ∧
    (∀ c d : Int, c = d → getWeatherInfo c = getWeatherInfo d) := by
  constructor
  · intro code
    unfold getWeatherInfo weatherTableEntries
    split_ifs <;> simp
  · intro c d h
    rw [h]

/-- Witness for C9: totality at an out-of-table code and determinism at a
concrete pair of equal codes. -/
theorem getWeatherInfo_total_deterministic_witness :
    getWeatherInfo 1000 ∈ weatherTableEntries ∧
    getWeatherInfo 7 = getWeatherInfo 7 :=
  ⟨getWeatherInfo_total_deterministic.1 1000,
   getWeatherInfo_total_deterministic.2 7 7 rfl⟩

/-!
The search flow. The DOM is a record of the visibility of the three panels
(weather container, error container, loading indicator; a panel is visible
when hidden is false, matching the hidden CSS class) plus the text contents
the script writes, and the value of the city input field. The network is an
environment giving each fetch's outcome: an HTTP-level failure (response.ok
false) or parsed JSON data.
-/

/-- A JSON number as the script consumes it: its numeric value and the string
JavaScript renders it to when interpolated into a template literal. -/
structure JsNum where
  val : ℚ
  str : String
deriving DecidableEq

/-- JavaScript Math.round on the numeric value: half rounds up (toward
positive infinity), so round x = floor (x + 1/2). -/
def jsRound (q : ℚ) : Int :=
  ⌊q + 1/2⌋

/-- JavaScript String.prototype.trim as used on script.js line 35: strip
leading and trailing whitespace characters. -/
def jsTrim (s : String) : String :=
  String.mk (((s.data.dropWhile Char.isWhitespace).reverse.dropWhile Char.isWhitespace).reverse)

/-- One entry of the geocoding response's results list, as destructured on
script.js line 55. -/
structure GeoResult where
  name : String
  latitude : JsNum
  longitude : JsNum
  country : String
deriving DecidableEq

/-- Parsed geocoding response body: the results field may be absent. -/
structure GeoData where
  results : Option (List GeoResult)
deriving DecidableEq

/-- The current block of the weather response, the five requested fields. -/
structure Current where
  temperature_2m : JsNum
  relative_humidity_2m : JsNum
  apparent_temperature : JsNum
  weather_code : Int
  wind_speed_10m : JsNum
deriving DecidableEq

/-- Parsed weather response body. -/
structure WeatherData where
  current : Current
deriving DecidableEq

/-- Outcome of one awaited fetch step: HTTP non-success (response.ok false,
which the helper turns into its fixed unavailable message), a parsed body,
or a thrown/rejected error — a network failure of fetch itself or a
response.json() parse failure — whose verbatim message the catch in
handleSearch displays. -/
inductive FetchResult (α : Type) where
  | httpError : FetchResult α
  | success (data : α) : FetchResult α
  | jsError (message : String) : FetchResult α
deriving DecidableEq

/-- The DOM as the script touches it: panel visibility (hidden flags) and
the text contents of the display elements, plus the city input's value. -/
structure Dom where
  cityInputValue : String
  weatherHidden : Bool
  errorHidden : Bool
  loadingHidden : Bool
  cityNameText : String
  dateText : String
  tempText : String
  humidityText : String
  windText : String
  feelsLikeText : String
  weatherDescText : String
  weatherIconClass : String
  errorText : String
deriving DecidableEq

/-- The external world for one search: the geocoding service's response to a
query string, the weather service's response to a coordinate pair, and
today's formatted date string from toLocaleDateString. -/
structure Env where
  geoResp : String → FetchResult GeoData
  weatherResp : JsNum → JsNum → FetchResult WeatherData
  todayStr : String

/-- The results list the script checks on line 50: an absent field behaves
as an empty list (geoData.results falsy, or length zero). -/
def geoResultsList (g : GeoData) : List GeoResult :=
  g.results.getD []

/-- Observable record of one handleSearch run: the DOM states at the points
where the handler suspends or finishes (each await, then completion), whether
each outbound client was invoked, and how many times classList.add hid the
loading indicator. -/
structure Trace where
  states : List Dom
  geoCalled : Bool
  weatherCalled : Bool
  hideLoadingCount : Nat
deriving DecidableEq

/-- showError (script.js lines 125-128): write the message into the error
text element and unhide the error container. -/
def showError (dom : Dom) (message : String) : Dom :=
  { dom with errorText := message, errorHidden := false }

/-- updateUI (script.js lines 99-122): write every display field, then
unhide the weather container. Math.round for the two temperatures,
template-literal interpolation with fixed suffixes for the rest. -/
def updateUI (env : Env) (dom : Dom) (city country : String) (data : WeatherData) : Dom :=
  let current := data.current
  let weatherInfo := getWeatherInfo current.weather_code
  { dom with
    cityNameText := city ++ ", " ++ country
    dateText := env.todayStr
    tempText := toString (jsRound current.temperature_2m.val)
    humidityText := current.relative_humidity_2m.str ++ "%"
    windText := current.wind_speed_10m.str ++ " km/h"
    feelsLikeText := toString (jsRound current.apparent_temperature.val) ++ "Â°"
    weatherDescText := weatherInfo.description
    weatherIconClass := "fa-solid " ++ weatherInfo.icon
    weatherHidden := false }

/-- handleSearch (script.js lines 34-71). Trim the input and return if it is
empty; otherwise hide both result and error panels, show the loading
indicator, await the geocode (a suspension point), fail on HTTP error, on a
thrown fetch/JSON error, or on an empty/absent results list, else await the
weather fetch for the first result's coordinates (a second suspension
point), which may fail the same ways; on any failure the catch shows the
failure's message, and the finally always hides the loading indicator
once. showError/updateUI and the finally run in one synchronous continuation,
so only the pre-await states and the final state are observable. -/
def handleSearch (env : Env) (dom : Dom) : Dom × Trace :=
  let city := jsTrim dom.cityInputValue
  if city = "" then
    (dom, ⟨[], false, false, 0⟩)
  else
    let dom1 := { dom with weatherHidden := true, errorHidden := true, loadingHidden := false }
    match env.geoResp city with
    | .httpError =>
        let dom2 := showError dom1 "Geocoding service unavailable"
        let domF := { dom2 with loadingHidden := true }
        (domF, ⟨[dom1, domF], true, false, 1⟩)
    | .jsError msg =>
        let dom2 := showError dom1 msg
        let domF := { dom2 with loadingHidden := true }
        (domF, ⟨[dom1, domF], true, false, 1⟩)
    | .success geoData =>
        match geoResultsList geoData with
        | [] =>
            let dom2 := showError dom1 ("City \"" ++ city ++ "\" not found")
            let domF := { dom2 with loadingHidden := true }
            (domF, ⟨[dom1, domF], true, false, 1⟩)
        | r :: _ =>
            match env.weatherResp r.latitude r.longitude with
            | .httpError =>
                let dom2 := showError dom1 "Weather service unavailable"
                let domF := { dom2 with loadingHidden := true }
                (domF, ⟨[dom1, dom1, domF], true, true, 1⟩)
            | .jsError msg =>
                let dom2 := showError dom1 msg
                let domF := { dom2 with loadingHidden := true }
                (domF, ⟨[dom1, dom1, domF], true, true, 1⟩)
            | .success weatherData =>
                let dom2 := updateUI env dom1 r.name r.country weatherData
                let domF := { dom2 with loadingHidden := true }
                (domF, ⟨[dom1, dom1, domF], true, true, 1⟩)

/-- Number of visible panels among weather, error and loading for given
hidden flags. -/
def visCountB (w e l : Bool) : Nat :=
  (if w then 0 else 1) + (if e then 0 else 1) + (if l then 0 else 1)

/-- Number of visible panels in a DOM state. -/
def visCount (d : Dom) : Nat :=
  visCountB d.weatherHidden d.errorHidden d.loadingHidden

/-- Number of UI states holding for given hidden flags, the four states read
off the panels: Idle (all hidden), Loading (only loading visible), Result
(only weather visible), Error (only error visible). -/
def stateCountB (w e l : Bool) : Nat :=
  (if w && e && l then 1 else 0) +
  (if !l && w && e then 1 else 0) +
  (if !w && e && l then 1 else 0) +
  (if !e && w && l then 1 else 0)

/-- Number of UI states a DOM state satisfies. -/
def stateCount (d : Dom) : Nat :=
  stateCountB d.weatherHidden d.errorHidden d.loadingHidden

/-- With at most one panel visible, exactly one of the four UI states holds. -/
theorem stateCountB_of_visCountB :
    ∀ w e l : Bool, visCountB w e l ≤ 1 → stateCountB w e l = 1 := by
  decide

/-!
Concrete sample values used by the witnesses: an idle DOM with a padded
query, and environments for the success, geocode-failure and no-results
outcomes.
-/

/-- An idle DOM before a search: all three panels hidden, padded city input. -/
def domIdle : Dom :=
  { cityInputValue := "  Paris "
    weatherHidden := true
    errorHidden := true
    loadingHidden := true
    cityNameText := ""
    dateText := ""
    tempText := ""
    humidityText := ""
    windText := ""
    feelsLikeText := ""
    weatherDescText := ""
    weatherIconClass := ""
    errorText := "" }

/-- The idle DOM with a whitespace-only input. -/
def domBlank : Dom :=
  { domIdle with cityInputValue := "   " }

/-- A geocoding result entry. -/
def geoParis : GeoResult :=
  { name := "Paris"
    latitude := ⟨4885/100, "48.85"⟩
    longitude := ⟨235/100, "2.35"⟩
    country := "France" }

/-- A geocoding body with one result. -/
def geoDataParis : GeoData :=
  ⟨some [geoParis]⟩

/-- A current-conditions block with temperature 23.4 and apparent 21.6. -/
def currentSample : Current :=
  { temperature_2m := ⟨117/5, "23.4"⟩
    relative_humidity_2m := ⟨60, "60"⟩
    apparent_temperature := ⟨108/5, "21.6"⟩
    weather_code := 3
    wind_speed_10m := ⟨123/10, "12.3"⟩ }

/-- A weather body around currentSample. -/
def weatherSample : WeatherData :=
  ⟨currentSample⟩

/-- Environment in which both services succeed. -/
def envOK : Env :=
  { geoResp := fun _ => .success geoDataParis
    weatherResp := fun _ _ => .success weatherSample
    todayStr := "Sunday, Oct 12" }

/-- Environment in which the geocoding HTTP call fails. -/
def envGeoFail : Env :=
  { geoResp := fun _ => .httpError
    weatherResp := fun _ _ => .success weatherSample
    todayStr := "Sunday, Oct 12" }

/-- Environment in which geocoding succeeds with an empty results list. -/
def envNoResults : Env :=
  { geoResp := fun _ => .success ⟨some []⟩
    weatherResp := fun _ _ => .success weatherSample
    todayStr := "Sunday, Oct 12" }

/-- Claim C3: every search from a non-empty trimmed input hides the loading
indicator exactly once on exit, whatever the outcome; the cleanup is the
unconditional finally clause, so the final state always has it hidden. -/
theorem handleSearch_hides_loading_exactly_once (env : Env) (dom : Dom)
    (h : jsTrim dom.cityInputValue ≠ "") :
    (handleSearch env dom).2.hideLoadingCount = 1 ∧
    (handleSearch env dom).1.loadingHidden = true := by
  rcases hg : env.geoResp (jsTrim dom.cityInputValue) with _ | g | msg
  · simp [handleSearch, showError, h, hg]
  · rcases hl : geoResultsList g with _ | ⟨r, rest⟩
    · simp [handleSearch, showError, h, hg, hl]
    · rcases hw : env.weatherResp r.latitude r.longitude with _ | w | msg
      · simp [handleSearch, showError, h, hg, hl, hw]
      · simp [handleSearch, updateUI, h, hg, hl, hw]
      · simp [handleSearch, showError, h, hg, hl, hw]
  · simp [handleSearch, showError, h, hg]

/-- Witness for C3: the successful-search environment at the idle DOM. -/
theorem handleSearch_hides_loading_exactly_once_witness :
    (handleSearch envOK domIdle).2.hideLoadingCount = 1 ∧
    (handleSearch envOK domIdle).1.loadingHidden = true :=
  handleSearch_hides_loading_exactly_once envOK domIdle (by decide)

/-- Claim C4: when geocoding succeeds over HTTP but carries an empty or
absent results list, the flow ends in the Error state with a message that
contains the queried (trimmed) city name, and the result panel is hidden at
every observable point, so the Result state is never reached. -/
theorem handleSearch_no_results_not_found (env : Env) (dom : Dom) (g : GeoData)
    (h : jsTrim dom.cityInputValue ≠ "")
    (hg : env.geoResp (jsTrim dom.cityInputValue) = .success g)
    (hres : geoResultsList g = []) :
    (handleSearch env dom).1.errorHidden = false ∧
    (∃ l r, (handleSearch env dom).1.errorText =
      l ++ jsTrim dom.cityInputValue ++ r) ∧
    (handleSearch env dom).1.weatherHidden = true ∧
    ∀ d ∈ (handleSearch env dom).2.states, d.weatherHidden = true := by
  refine ⟨?_, ⟨"City \"", "\" not found", ?_⟩, ?_, ?_⟩ <;>
    simp [handleSearch, showError, h, hg, hres]

/-- Witness for C4: the empty-results environment at the idle DOM. -/
theorem handleSearch_no_results_not_found_witness :
    (handleSearch envNoResults domIdle).1.errorHidden = false ∧
    (handleSearch envNoResults domIdle).1.weatherHidden = true :=
  ⟨(handleSearch_no_results_not_found envNoResults domIdle ⟨some []⟩
      (by decide) rfl rfl).1,
   (handleSearch_no_results_not_found envNoResults domIdle ⟨some []⟩
      (by decide) rfl rfl).2.2.1⟩

/-- Claim C5: a geocoding HTTP failure ends the flow in the Error state with
the weather client never invoked; and in every flow the weather call only
happens after the geocode call has succeeded with a first result. -/
theorem handleSearch_geocode_fail_no_weather (env : Env) (dom : Dom)
    (h : jsTrim dom.cityInputValue ≠ "") :
    (env.geoResp (jsTrim dom.cityInputValue) = .httpError →
      (handleSearch env dom).1.errorHidden = false ∧
      (handleSearch env dom).1.errorText = "Geocoding service unavailable" ∧
      (handleSearch env dom).2.weatherCalled = false) ∧
    ((handleSearch env dom).2.weatherCalled = true →
      ∃ g r rest, env.geoResp (jsTrim dom.cityInputValue) = .success g ∧
        geoResultsList g = r :: rest) := by
  constructor
  · intro hg
    simp [handleSearch, showError, h, hg]
  · intro hw
    rcases hg : env.geoResp (jsTrim dom.cityInputValue) with _ | g | msg
    · simp [handleSearch, showError, h, hg] at hw
    · rcases hl : geoResultsList g with _ | ⟨r, rest⟩
      · simp [handleSearch, showError, h, hg, hl] at hw
      · exact ⟨g, r, rest, rfl, hl⟩
    · simp [handleSearch, showError, h, hg] at hw

/-- Witness for C5: the geocode-failure environment at the idle DOM. -/
theorem handleSearch_geocode_fail_no_weather_witness :
    (handleSearch envGeoFail domIdle).1.errorHidden = false ∧
    (handleSearch envGeoFail domIdle).1.errorText = "Geocoding service unavailable" ∧
    (handleSearch envGeoFail domIdle).2.weatherCalled = false :=
  (handleSearch_geocode_fail_no_weather envGeoFail domIdle (by decide)).1 rfl

/-- Claim C6: a submission whose input trims to the empty string is a no-op:
the DOM is returned unchanged, no state is observable, neither client is
invoked and the loading indicator is never hidden. -/
theorem handleSearch_blank_input_noop (env : Env) (dom : Dom)
    (h : jsTrim dom.cityInputValue = "") :
    handleSearch env dom = (dom, ⟨[], false, false, 0⟩) := by
  simp [handleSearch, h]

/-- Witness for C6: the whitespace-only input at the successful environment. -/
theorem handleSearch_blank_input_noop_witness :
    handleSearch envOK domBlank = (domBlank, ⟨[], false, false, 0⟩) :=
  handleSearch_blank_input_noop envOK domBlank (by decide)

/-- Claim C7: if at most one panel is visible before the handler runs, then
at every observable point of the flow and at its end at most one of the
three panels is visible and exactly one of the four UI states (Idle,
Loading, Result, Error) holds. -/
theorem handleSearch_panel_mutual_exclusion (env : Env) (dom : Dom)
    (h : visCount dom ≤ 1) :
    (∀ d ∈ (handleSearch env dom).2.states, visCount d ≤ 1 ∧ stateCount d = 1) ∧
    (visCount (handleSearch env dom).1 ≤ 1 ∧
      stateCount (handleSearch env dom).1 = 1) := by
  by_cases hc : jsTrim dom.cityInputValue = ""
  · have hs : stateCount dom = 1 :=
      stateCountB_of_visCountB dom.weatherHidden dom.errorHidden dom.loadingHidden h
    simp [handleSearch, hc, h, hs]
  · rcases hg : env.geoResp (jsTrim dom.cityInputValue) with _ | g | msg
    · simp [handleSearch, showError, hc, hg, visCount, visCountB, stateCount, stateCountB]
    · rcases hl : geoResultsList g with _ | ⟨r, rest⟩
      · simp [handleSearch, showError, hc, hg, hl, visCount, visCountB, stateCount, stateCountB]
      · rcases hw : env.weatherResp r.latitude r.longitude with _ | w | msg
        · simp [handleSearch, showError, hc, hg, hl, hw, visCount, visCountB,
            stateCount, stateCountB]
        · simp [handleSearch, updateUI, hc, hg, hl, hw, visCount, visCountB,
            stateCount, stateCountB]
        · simp [handleSearch, showError, hc, hg, hl, hw, visCount, visCountB,
            stateCount, stateCountB]
    · simp [handleSearch, showError, hc, hg, visCount, visCountB, stateCount, stateCountB]

/-- Witness for C7: the successful environment at the idle DOM. -/
theorem handleSearch_panel_mutual_exclusion_witness :
    visCount (handleSearch envOK domIdle).1 ≤ 1 ∧
    stateCount (handleSearch envOK domIdle).1 = 1 :=
  (handleSearch_panel_mutual_exclusion envOK domIdle (by decide)).2

/-- Claim C8: on a fully successful search whose conditions carry
temperature 23.4 and apparent temperature 21.6, the rendered temperature and
feels-like values display 23 and 22 (nearest-integer rounding), while
humidity and wind speed keep the provider-supplied rendering with the fixed
suffixes. -/
theorem handleSearch_display_rounding (env : Env) (dom : Dom) (g : GeoData)
    (r : GeoResult) (rest : List GeoResult) (w : WeatherData)
    (h : jsTrim dom.cityInputValue ≠ "")
    (hg : env.geoResp (jsTrim dom.cityInputValue) = .success g)
    (hres : geoResultsList g = r :: rest)
    (hw : env.weatherResp r.latitude r.longitude = .success w)
    (ht : w.current.temperature_2m.val = 117/5)
    (ha : w.current.apparent_temperature.val = 108/5) :
    (handleSearch env dom).1.tempText = "23" ∧
    (handleSearch env dom).1.feelsLikeText = "22" ++ "Â°" ∧
    (handleSearch env dom).1.humidityText =
      w.current.relative_humidity_2m.str ++ "%" ∧
    (handleSearch env dom).1.windText =
      w.current.wind_speed_10m.str ++ " km/h" := by
  have h23 : jsRound (117/5) = 23 := by norm_num [jsRound]
  have h22 : jsRound (108/5) = 22 := by norm_num [jsRound]
  refine ⟨?_, ?_, ?_, ?_⟩ <;>
    simp [handleSearch, updateUI, h, hg, hres, hw, ht, ha, h23, h22] <;> rfl

/-- Witness for C8: the successful environment, whose sample conditions have
temperature 23.4 and apparent temperature 21.6. -/
theorem handleSearch_display_rounding_witness :
    (handleSearch envOK domIdle).1.tempText = "23" ∧
    (handleSearch envOK domIdle).1.feelsLikeText = "22" ++ "Â°" ∧
    (handleSearch envOK domIdle).1.humidityText =
      weatherSample.current.relative_humidity_2m.str ++ "%" ∧
    (handleSearch envOK domIdle).1.windText =
      weatherSample.current.wind_speed_10m.str ++ " km/h" :=
  handleSearch_display_rounding envOK domIdle geoDataParis geoParis [] weatherSample
    (by decide) rfl rfl rfl rfl rfl

/-- Environment in which the geocoding fetch itself rejects (a network
failure), whose message the catch displays verbatim. -/
def envGeoReject : Env :=
  { geoResp := fun _ => .jsError "Failed to fetch"
    weatherResp := fun _ _ => .success weatherSample
    todayStr := "Sunday, Oct 12" }

/-- Counterexample to claim C10 as stated: when the geocoding fetch rejects
(network failure), the catch displays its message verbatim, so the error
panel ends up shown with a fourth text that is none of the claim's three. -/
theorem handleSearch_fourth_error_text :
    (handleSearch envGeoReject domIdle).1.errorHidden = false ∧
    (handleSearch envGeoReject domIdle).1.errorText = "Failed to fetch" ∧
    (handleSearch envGeoReject domIdle).1.errorText ≠ "Geocoding service unavailable" ∧
    (handleSearch envGeoReject domIdle).1.errorText ≠ "Weather service unavailable" ∧
    (handleSearch envGeoReject domIdle).1.errorText ≠
      "City \"" ++ jsTrim domIdle.cityInputValue ++ "\" not found" := by
  decide

/-- Claim C10 amended: each of the three handled causes carries its exact
text — the geocoding-unavailable text on geocode HTTP failure, the
not-found text quoting the trimmed query (not the provider name) on an
empty results list, the weather-unavailable text on weather HTTP failure —
and whenever the error panel ends up shown its text is one of those three
or the verbatim message of an unexpected exception thrown by the geocode or
weather step (a fetch rejection or a JSON parse failure). -/
theorem handleSearch_error_message_taxonomy (env : Env) (dom : Dom)
    (h : jsTrim dom.cityInputValue ≠ "") :
    (env.geoResp (jsTrim dom.cityInputValue) = .httpError →
      (handleSearch env dom).1.errorText = "Geocoding service unavailable" ∧
      (handleSearch env dom).1.errorHidden = false) ∧
    (∀ g, env.geoResp (jsTrim dom.cityInputValue) = .success g →
      geoResultsList g = [] →
      (handleSearch env dom).1.errorText =
        "City \"" ++ jsTrim dom.cityInputValue ++ "\" not found" ∧
      (handleSearch env dom).1.errorHidden = false) ∧
    (∀ g r rest, env.geoResp (jsTrim dom.cityInputValue) = .success g →
      geoResultsList g = r :: rest →
      env.weatherResp r.latitude r.longitude = .httpError →
      (handleSearch env dom).1.errorText = "Weather service unavailable" ∧
      (handleSearch env dom).1.errorHidden = false) ∧
    ((handleSearch env dom).1.errorHidden = false →
      (handleSearch env dom).1.errorText = "Geocoding service unavailable" ∨
      (handleSearch env dom).1.errorText = "Weather service unavailable" ∨
      (handleSearch env dom).1.errorText =
        "City \"" ++ jsTrim dom.cityInputValue ++ "\" not found" ∨
      env.geoResp (jsTrim dom.cityInputValue) =
        .jsError (handleSearch env dom).1.errorText ∨
      ∃ g r rest, env.geoResp (jsTrim dom.cityInputValue) = .success g ∧
        geoResultsList g = r :: rest ∧
        env.weatherResp r.latitude r.longitude =
          .jsError (handleSearch env dom).1.errorText) := by
  refine ⟨?_, ?_, ?_, ?_⟩
  · intro hg
    simp [handleSearch, showError, h, hg]
  · intro g hg hres
    simp [handleSearch, showError, h, hg, hres]
  · intro g r rest hg hres hwx
    simp [handleSearch, showError, h, hg, hres, hwx]
  · intro he
    rcases hg : env.geoResp (jsTrim dom.cityInputValue) with _ | g | msg
    · left
      simp [handleSearch, showError, h, hg]
    · rcases hl : geoResultsList g with _ | ⟨r, rest⟩
      · right; right; left
        simp [handleSearch, showError, h, hg, hl]
      · rcases hw : env.weatherResp r.latitude r.longitude with _ | w | msg
        · right; left
          simp [handleSearch, showError, h, hg, hl, hw]
        · exfalso
          simp [handleSearch, updateUI, h, hg, hl, hw] at he
        · right; right; right; right
          refine ⟨g, r, rest, rfl, hl, ?_⟩
          simp [handleSearch, showError, h, hg, hl, hw]
    · right; right; right; left
      simp [handleSearch, showError, h, hg]

/-- Witness for C10: the empty-results environment at the idle DOM yields
the not-found text quoting the trimmed query. -/
theorem handleSearch_error_message_taxonomy_witness :
    (handleSearch envNoResults domIdle).1.errorText =
      "City \"" ++ jsTrim domIdle.cityInputValue ++ "\" not found" ∧
    (handleSearch envNoResults domIdle).1.errorHidden = false :=
  (handleSearch_error_message_taxonomy envNoResults domIdle (by decide)).2.1
    ⟨some []⟩ rfl rfl
